import Mathlib

/-!
Shallow embedding of the Inventronix ESP32 HTTP client core
(src/src/Inventronix.cpp, src/src/Inventronix.h, src/src/InventronixConfig.h).

The embedding covers the send-with-retry loop (Inventronix::sendPayload),
the backoff computation, the command processor (Inventronix::processCommands),
the registries (Inventronix::onCommand / Inventronix::onPulse), the dispatcher
(Inventronix::dispatchCommand) and the deactivation path
(Inventronix::handlePulseOff).  External collaborators (HTTP transport, JSON
parsing, WiFi, logging, the hardware pins and the Ticker) are modelled as
parameters and as event traces; machine integers are modelled as Int (C int)
and Nat (C unsigned long).
-/

set_option autoImplicit false

namespace Inventronix

/-- INVENTRONIX_MAX_RETRY_DELAY from InventronixConfig.h (10 seconds). -/
def MAX_RETRY_DELAY : Int := 10000

/-- INVENTRONIX_MAX_COMMANDS from Inventronix.h. -/
def MAX_COMMANDS : Nat := 16

/-- INVENTRONIX_MAX_PULSES from Inventronix.h. -/
def MAX_PULSES : Nat := 8

/-- Configuration fields of the Inventronix object that the retry loop reads:
retryAttempts is the int member written by setRetryAttempts (stored without
clamping), retryDelay the int member written by setRetryDelay. -/
structure Config where
  retryAttempts : Int
  retryDelay : Int
deriving Repr, DecidableEq

/-- Defaults from InventronixConfig.h: 3 attempts, 1000 ms base delay. -/
def defaultConfig : Config := { retryAttempts := 3, retryDelay := 1000 }

/-- Inventronix::setRetryAttempts stores the argument unchanged. -/
def setRetryAttempts (c : Config) (attempts : Int) : Config :=
  { c with retryAttempts := attempts }

/-- Inventronix::setRetryDelay stores the argument unchanged. -/
def setRetryDelay (c : Config) (milliseconds : Int) : Config :=
  { c with retryDelay := milliseconds }

/-- Outcome of one call of Inventronix::sendHTTPRequest: an HTTP status code
(a nonpositive value is a transport error sentinel) and the response body. -/
structure HttpResponse where
  status : Int
  body : String
deriving Repr, DecidableEq

/-- The delay computed in the retry branch of sendPayload:
delayMs = retryDelay * 2^(attempt-1), then capped at MAX_RETRY_DELAY. -/
def backoffDelay (retryDelay : Int) (attempt : Nat) : Int :=
  if retryDelay * 2 ^ (attempt - 1) > MAX_RETRY_DELAY then MAX_RETRY_DELAY
  else retryDelay * 2 ^ (attempt - 1)

/-- Observable outcome of the retry loop of sendPayload: the returned Bool,
how many transport attempts were performed, the delays slept (in order), and
the response body handed to processCommands when a 2xx attempt occurred. -/
structure SendTrace where
  success : Bool
  attemptsMade : Nat
  delays : List Int
  processed : Option String
deriving Repr, DecidableEq

/-- The for-loop of Inventronix::sendPayload starting at a given attempt
number, with the transport modelled as a function from the attempt number to
the response of that attempt.  Mirrors lines 86-141 of Inventronix.cpp:
run while attempt <= retryAttempts; on a 2xx status process the body and
return true; on a 4xx status other than 429 return false; otherwise, when
attempt < retryAttempts, sleep the capped exponential backoff delay and
continue with attempt+1, else fall out of the loop and return false. -/
def sendLoop (transport : Nat → HttpResponse) (cfg : Config) (attempt : Nat) :
    SendTrace :=
  if (attempt : Int) ≤ cfg.retryAttempts then
    if 200 ≤ (transport attempt).status ∧ (transport attempt).status < 300 then
      { success := true, attemptsMade := 1, delays := [],
        processed := some (transport attempt).body }
    else if 400 ≤ (transport attempt).status ∧ (transport attempt).status < 500 ∧
        (transport attempt).status ≠ 429 then
      { success := false, attemptsMade := 1, delays := [], processed := none }
    else if _h : (attempt : Int) < cfg.retryAttempts then
      { success := (sendLoop transport cfg (attempt + 1)).success,
        attemptsMade := (sendLoop transport cfg (attempt + 1)).attemptsMade + 1,
        delays := backoffDelay cfg.retryDelay attempt ::
          (sendLoop transport cfg (attempt + 1)).delays,
        processed := (sendLoop transport cfg (attempt + 1)).processed }
    else
      { success := false, attemptsMade := 1, delays := [], processed := none }
  else
    { success := false, attemptsMade := 0, delays := [], processed := none }
termination_by (cfg.retryAttempts + 1 - (attempt : Int)).toNat
decreasing_by omega

/-- Inventronix::sendPayload: fail at once when WiFi is unavailable,
otherwise run the retry loop from attempt 1. -/
def sendPayload (wifiConnected : Bool) (transport : Nat → HttpResponse)
    (cfg : Config) : SendTrace :=
  if wifiConnected then sendLoop transport cfg 1
  else { success := false, attemptsMade := 0, delays := [], processed := none }

/-- The retryable outcome classes named by the spec: transport error
(status <= 0), rate limiting (429), or a server error (5xx). -/
def retryableStatus (status : Int) : Prop :=
  status ≤ 0 ∨ status = 429 ∨ (500 ≤ status ∧ status < 600)

instance (status : Int) : Decidable (retryableStatus status) :=
  inferInstanceAs (Decidable (status ≤ 0 ∨ status = 429 ∨ (500 ≤ status ∧ status < 600)))

/-- Transport fixture answering 503 on every attempt. -/
def transport503 : Nat → HttpResponse := fun _ => { status := 503, body := "" }

/-- Transport fixture answering 200 with body ok on every attempt. -/
def transport200 : Nat → HttpResponse := fun _ => { status := 200, body := "ok" }

/-- Transport fixture answering 401 on every attempt. -/
def transport401 : Nat → HttpResponse := fun _ => { status := 401, body := "" }

/-- Arguments of a command invocation: the numeric view of the JSON arguments
object that dispatchCommand reads.  A key that is absent or holds a value not
convertible to unsigned long is modelled as missing, matching the fallback
behaviour of the ArduinoJson pipe operator. -/
def Args : Type := List (String × Nat)

instance : DecidableEq Args := inferInstanceAs (DecidableEq (List (String × Nat)))

instance : Repr Args := inferInstanceAs (Repr (List (String × Nat)))

/-- One element extracted from the commands array of a response body by
Inventronix::processCommands: command (string, via the pipe default ""),
execution_id (string, via the pipe default "") and arguments. -/
structure CommandEntry where
  command : String
  executionId : String
  args : Args
deriving Repr, DecidableEq

/-- Outcome of the external JSON parse of a response body (ArduinoJson is an
external collaborator): a deserialization error, a document without a
commands array, or the extracted entries of the commands array in order. -/
inductive ParseResult where
  | err : ParseResult
  | noCommands : ParseResult
  | commands (entries : List CommandEntry) : ParseResult
deriving Repr, DecidableEq

/-- Inventronix::processCommands, returning the list of entries handed to
dispatchCommand in order: nothing for an empty body, a parse error or a
missing commands array; otherwise every entry whose command string is
non-empty (strlen(command) > 0), in array order. -/
def processCommands (parse : String → ParseResult) (responseBody : String) :
    List CommandEntry :=
  if responseBody.length = 0 then []
  else
    match parse responseBody with
    | ParseResult.err => []
    | ParseResult.noCommands => []
    | ParseResult.commands entries =>
        entries.filter (fun e => 0 < e.command.length)

/-- One slot of the toggle command registry (struct CommandHandler in
Inventronix.h); the std::function callback is modelled by an identifier so
that the dispatch trace can name which callback was invoked. -/
structure CommandHandler where
  name : String
  callbackId : Nat
  registered : Bool
deriving Repr, DecidableEq

/-- One slot of the pulse registry (struct PulseHandler in Inventronix.h):
pin is -1 when the callback-based overload registered the entry, durationMs
is 0 when the duration is to be pulled from the command arguments; the
on/off std::function callbacks are modelled by their presence (the code only
tests them against nullptr before invoking them). -/
structure PulseHandler where
  name : String
  pin : Int
  durationMs : Nat
  hasOnCallback : Bool
  hasOffCallback : Bool
  active : Bool
  registered : Bool
deriving Repr, DecidableEq

/-- The registries of the Inventronix object.  The lists hold the slots
0 .. count-1 of the fixed C arrays: registration appends (bounded by the
capacity) and the dispatch loops run over exactly these slots. -/
structure DeviceState where
  commands : List CommandHandler
  pulses : List PulseHandler
deriving Repr, DecidableEq

/-- Inventronix::onCommand: drop the registration when the registry holds
INVENTRONIX_MAX_COMMANDS entries, else append the named slot. -/
def onCommand (s : DeviceState) (commandName : String) (callbackId : Nat) :
    DeviceState :=
  if MAX_COMMANDS ≤ s.commands.length then s
  else { s with commands := s.commands ++
    [{ name := commandName, callbackId := callbackId, registered := true }] }

/-- Inventronix::onPulse (pin-based overload): drop the registration when the
registry holds INVENTRONIX_MAX_PULSES entries, else append a slot with the
pin, the configured duration, no callbacks and active = false. -/
def onPulsePin (s : DeviceState) (commandName : String) (pin : Int)
    (durationMs : Nat) : DeviceState :=
  if MAX_PULSES ≤ s.pulses.length then s
  else { s with pulses := s.pulses ++
    [{ name := commandName, pin := pin, durationMs := durationMs,
       hasOnCallback := false, hasOffCallback := false,
       active := false, registered := true }] }

/-- Inventronix::onPulse (callback-based overload): drop the registration
when the registry holds INVENTRONIX_MAX_PULSES entries, else append a slot
with pin = -1, the configured duration and the given callbacks. -/
def onPulseCallback (s : DeviceState) (commandName : String) (durationMs : Nat)
    (hasOn hasOff : Bool) : DeviceState :=
  if MAX_PULSES ≤ s.pulses.length then s
  else { s with pulses := s.pulses ++
    [{ name := commandName, pin := -1, durationMs := durationMs,
       hasOnCallback := hasOn, hasOffCallback := hasOff,
       active := false, registered := true }] }

/-- The match test of the toggle dispatch loop:
_commands[i].registered && _commands[i].name == command. -/
def commandMatches (command : String) (c : CommandHandler) : Bool :=
  c.registered && c.name == command

/-- The match test of the pulse dispatch loop:
_pulses[i].registered && _pulses[i].name == command. -/
def pulseMatches (command : String) (p : PulseHandler) : Bool :=
  p.registered && p.name == command

/-- Index of the first list element satisfying a predicate, mirroring the
linear search of the dispatch loops. -/
def firstIdx {α : Type} (pred : α → Bool) : List α → Option Nat
  | [] => none
  | a :: rest =>
      if pred a then some 0 else (firstIdx pred rest).map (fun n => n + 1)

/-- Duration resolution of the pulse branch of dispatchCommand: the
configured duration when nonzero, else arguments duration, else arguments
duration_ms, else 0 (and a resulting 0 aborts the activation). -/
def resolveDuration (configured : Nat) (args : Args) : Nat :=
  if configured ≠ 0 then configured
  else
    match List.lookup "duration" args with
    | some d => d
    | none =>
        match List.lookup "duration_ms" args with
        | some d => d
        | none => 0

/-- Hardware and callback side effects of dispatch and deactivation, indexed
where the code routes through a pulse slot index. -/
inductive SideEffect where
  | toggleCallback (callbackId : Nat) (args : Args)
  | pinWrite (pin : Int) (high : Bool)
  | pulseOnCallback (index : Nat)
  | pulseOffCallback (index : Nat)
  | scheduleOff (index : Nat) (durationMs : Nat)
deriving Repr, DecidableEq

/-- The on side effect of activating pulse slot idx: drive the pin high when
pin >= 0, else invoke the on callback when one was registered. -/
def pulseOnEffects (idx : Nat) (p : PulseHandler) : List SideEffect :=
  if 0 ≤ p.pin then [SideEffect.pinWrite p.pin true]
  else if p.hasOnCallback then [SideEffect.pulseOnCallback idx]
  else []

/-- The off side effect of deactivating pulse slot idx: drive the pin low
when pin >= 0, else invoke the off callback when one was registered. -/
def pulseOffEffects (idx : Nat) (p : PulseHandler) : List SideEffect :=
  if 0 ≤ p.pin then [SideEffect.pinWrite p.pin false]
  else if p.hasOffCallback then [SideEffect.pulseOffCallback idx]
  else []

/-- The first loop of Inventronix::dispatchCommand: scan the toggle registry
in registration order and return the callback of the first registered slot
whose name matches, if any. -/
def dispatchToggle (command : String) : List CommandHandler → Option Nat
  | [] => none
  | c :: rest =>
      if commandMatches command c then some c.callbackId
      else dispatchToggle command rest

/-- The second loop of Inventronix::dispatchCommand over the pulse slots
starting at index idx: on the first registered name match, drop the command
when the slot is already active (spam protection) or when no positive
duration is resolvable; otherwise mark the slot active, emit the on side
effect and schedule the deactivation after the resolved duration. -/
def dispatchPulse (command : String) (args : Args) (idx : Nat) :
    List PulseHandler → List PulseHandler × List SideEffect
  | [] => ([], [])
  | p :: rest =>
      if pulseMatches command p then
        if p.active then (p :: rest, [])
        else if resolveDuration p.durationMs args = 0 then (p :: rest, [])
        else ({ p with active := true } :: rest,
          pulseOnEffects idx p ++
            [SideEffect.scheduleOff idx (resolveDuration p.durationMs args)])
      else
        ((p :: (dispatchPulse command args (idx + 1) rest).1),
          (dispatchPulse command args (idx + 1) rest).2)

/-- Inventronix::dispatchCommand: the toggle registry is searched first and a
match invokes exactly that callback and returns; only otherwise is the pulse
registry searched. -/
def dispatchCommand (s : DeviceState) (command : String) (args : Args) :
    DeviceState × List SideEffect :=
  match dispatchToggle command s.commands with
  | some callbackId => (s, [SideEffect.toggleCallback callbackId args])
  | none =>
      ({ s with pulses := (dispatchPulse command args 0 s.pulses).1 },
        (dispatchPulse command args 0 s.pulses).2)

/-- Inventronix::handlePulseOff: a no-op for an out-of-range index (the int
index is checked against 0 and _pulseCount) and for a slot that is not
active; for an active slot it emits the off side effect and clears active. -/
def handlePulseOff (s : DeviceState) (pulseIndex : Int) :
    DeviceState × List SideEffect :=
  if pulseIndex < 0 ∨ (s.pulses.length : Int) ≤ pulseIndex then (s, [])
  else
    match s.pulses.get? pulseIndex.toNat with
    | none => (s, [])
    | some p =>
        if p.active = false then (s, [])
        else
          ({ s with pulses :=
              s.pulses.set pulseIndex.toNat { p with active := false } },
            pulseOffEffects pulseIndex.toNat p)

/-- Fixture: a registered pin-based pulse slot with a configured duration. -/
def samplePulse : PulseHandler :=
  { name := "pulse1", pin := 5, durationMs := 100, hasOnCallback := false,
    hasOffCallback := false, active := false, registered := true }

/-- Fixture: a device with no toggles and the one sample pulse slot. -/
def pulseState : DeviceState := { commands := [], pulses := [samplePulse] }

/-- Fixture: a device where the name relay is registered in both registries. -/
def dualState : DeviceState :=
  { commands := [{ name := "relay", callbackId := 7, registered := true }],
    pulses := [{ name := "relay", pin := 4, durationMs := 50,
                 hasOnCallback := false, hasOffCallback := false,
                 active := false, registered := true }] }

/-- Fixture: the toggle registry filled to capacity, the pulse registry
empty. -/
def toggleFullState : DeviceState :=
  { commands := List.replicate MAX_COMMANDS
      { name := "t", callbackId := 0, registered := true },
    pulses := [] }

/-- Fixture: the pulse registry filled to capacity, the toggle registry
empty. -/
def pulseFullState : DeviceState :=
  { commands := [],
    pulses := List.replicate MAX_PULSES
      { name := "p", pin := 3, durationMs := 10, hasOnCallback := false,
        hasOffCallback := false, active := false, registered := true } }

/-- Fixture: the sample pulse slot while it is active. -/
def samplePulseActive : PulseHandler := { samplePulse with active := true }

/-- Fixture: the sample pulse slot after its deactivation. -/
def samplePulseCleared : PulseHandler := { samplePulseActive with active := false }

/-- Fixture: a device holding the active sample pulse slot. -/
def activePulseState : DeviceState :=
  { commands := [], pulses := [samplePulseActive] }

/-- Fixture: an extracted entry with a non-empty command name. -/
def sampleEntry : CommandEntry :=
  { command := "led_on", executionId := "e1", args := [] }

/-- Fixture: an extracted entry with an empty command name (skipped). -/
def sampleEmptyEntry : CommandEntry :=
  { command := "", executionId := "e2", args := [] }

/-- Fixture parser: the body cmds parses to one valid and one empty-named
entry, every other body fails to parse. -/
def sampleParse : String → ParseResult := fun responseBody =>
  if responseBody = "cmds" then
    ParseResult.commands [sampleEntry, sampleEmptyEntry]
  else ParseResult.err

/-- A retryable status is neither a 2xx success nor a non-429 4xx error. -/
theorem retryableStatus_classify {status : Int} (h : retryableStatus status) :
    ¬ (200 ≤ status ∧ status < 300) ∧
    ¬ (400 ≤ status ∧ status < 500 ∧ status ≠ 429) := by
  rcases h with h | h | h <;> constructor <;> omega

/-- The capped backoff is exactly the min of the exponential term and the cap. -/
theorem backoffDelay_eq_min (retryDelay : Int) (attempt : Nat) :
    backoffDelay retryDelay attempt =
      min (retryDelay * 2 ^ (attempt - 1)) MAX_RETRY_DELAY := by
  unfold backoffDelay
  rcases le_or_lt (retryDelay * 2 ^ (attempt - 1)) MAX_RETRY_DELAY with h | h
  · rw [if_neg (by omega), min_eq_left h]
  · rw [if_pos h, min_eq_right (le_of_lt h)]

/-- One unfolding of the loop on a 2xx attempt. -/
theorem sendLoop_step_success (transport : Nat → HttpResponse) (cfg : Config)
    (attempt : Nat) (h1 : (attempt : Int) ≤ cfg.retryAttempts)
    (h2 : 200 ≤ (transport attempt).status ∧ (transport attempt).status < 300) :
    sendLoop transport cfg attempt =
      { success := true, attemptsMade := 1, delays := [],
        processed := some (transport attempt).body } := by
  unfold sendLoop
  rw [if_pos h1, if_pos h2]

/-- One unfolding of the loop on a non-429 4xx attempt. -/
theorem sendLoop_step_clientError (transport : Nat → HttpResponse) (cfg : Config)
    (attempt : Nat) (h1 : (attempt : Int) ≤ cfg.retryAttempts)
    (h2 : 400 ≤ (transport attempt).status ∧ (transport attempt).status < 500 ∧
      (transport attempt).status ≠ 429) :
    sendLoop transport cfg attempt =
      { success := false, attemptsMade := 1, delays := [], processed := none } := by
  unfold sendLoop
  rw [if_pos h1, if_neg (by omega), if_pos h2]

/-- One unfolding of the loop on a retryable attempt that is not the last one:
sleep the backoff delay and continue with the next attempt. -/
theorem sendLoop_step_retry_continue (transport : Nat → HttpResponse)
    (cfg : Config) (attempt : Nat)
    (h1 : (attempt : Int) < cfg.retryAttempts)
    (h2 : retryableStatus (transport attempt).status) :
    sendLoop transport cfg attempt =
      { success := (sendLoop transport cfg (attempt + 1)).success,
        attemptsMade := (sendLoop transport cfg (attempt + 1)).attemptsMade + 1,
        delays := backoffDelay cfg.retryDelay attempt ::
          (sendLoop transport cfg (attempt + 1)).delays,
        processed := (sendLoop transport cfg (attempt + 1)).processed } := by
  obtain ⟨hn2, hn4⟩ := retryableStatus_classify h2
  rw [sendLoop]
  rw [if_pos (le_of_lt h1), if_neg hn2, if_neg hn4, dif_pos h1]

/-- One unfolding of the loop on a retryable attempt that is the last one:
no delay, fall out of the loop, return false. -/
theorem sendLoop_step_retry_exhaust (transport : Nat → HttpResponse)
    (cfg : Config) (attempt : Nat)
    (h1 : (attempt : Int) = cfg.retryAttempts)
    (h2 : retryableStatus (transport attempt).status) :
    sendLoop transport cfg attempt =
      { success := false, attemptsMade := 1, delays := [], processed := none } := by
  obtain ⟨hn2, hn4⟩ := retryableStatus_classify h2
  rw [sendLoop]
  rw [if_pos (le_of_eq h1), if_neg hn2, if_neg hn4, dif_neg (by omega)]

/-- When the loop condition still holds, at least one attempt is performed. -/
theorem sendLoop_attempts_pos (transport : Nat → HttpResponse) (cfg : Config)
    (attempt : Nat) (h1 : (attempt : Int) ≤ cfg.retryAttempts) :
    1 ≤ (sendLoop transport cfg attempt).attemptsMade := by
  rw [sendLoop]
  rw [if_pos h1]
  split
  · exact le_refl 1
  · split
    · exact le_refl 1
    · split
      · exact Nat.le_add_left 1 _
      · exact le_refl 1

/-- C1: for a retryable outcome (transport error, 429 or 5xx) at a given
attempt, if the attempt number is below the configured retry_attempts the
loop sleeps exactly min(retry_base_delay * 2^(attempt-1), 10000) ms and then
performs the next attempt (at least one further attempt is made); if the
attempt number equals retry_attempts the loop returns false with no further
delay and no further attempt. -/
theorem sendLoop_retryable_backoff_cases (transport : Nat → HttpResponse)
    (cfg : Config) (attempt : Nat)
    (hr : retryableStatus (transport attempt).status) :
    ((attempt : Int) < cfg.retryAttempts →
      sendLoop transport cfg attempt =
        { success := (sendLoop transport cfg (attempt + 1)).success,
          attemptsMade := (sendLoop transport cfg (attempt + 1)).attemptsMade + 1,
          delays := min (cfg.retryDelay * 2 ^ (attempt - 1)) MAX_RETRY_DELAY ::
            (sendLoop transport cfg (attempt + 1)).delays,
          processed := (sendLoop transport cfg (attempt + 1)).processed } ∧
      1 ≤ (sendLoop transport cfg (attempt + 1)).attemptsMade) ∧
    ((attempt : Int) = cfg.retryAttempts →
      sendLoop transport cfg attempt =
        { success := false, attemptsMade := 1, delays := [], processed := none }) := by
  constructor
  · intro hlt
    constructor
    · rw [← backoffDelay_eq_min]
      exact sendLoop_step_retry_continue transport cfg attempt hlt hr
    · exact sendLoop_attempts_pos transport cfg (attempt + 1) (by push_cast; omega)
  · intro heq
    exact sendLoop_step_retry_exhaust transport cfg attempt heq hr

/-- Witness for C1: with the default configuration (3 attempts) and a
transport answering 503 every time, the final attempt 3 fails permanently
with no delay. -/
theorem sendLoop_retryable_backoff_cases_witness :
    sendLoop transport503 defaultConfig 3 =
      { success := false, attemptsMade := 1, delays := [], processed := none } :=
  (sendLoop_retryable_backoff_cases transport503 defaultConfig 3
    (by decide)).2 (by decide)

/-- C2: an attempt answered with a 4xx status other than 429 makes the loop
return false at once: one attempt consumed, no delay slept, no body
processed, however many attempts remain. -/
theorem sendLoop_clientError_no_retry (transport : Nat → HttpResponse)
    (cfg : Config) (attempt : Nat)
    (h1 : (attempt : Int) ≤ cfg.retryAttempts)
    (h2 : 400 ≤ (transport attempt).status ∧ (transport attempt).status < 500 ∧
      (transport attempt).status ≠ 429) :
    sendLoop transport cfg attempt =
      { success := false, attemptsMade := 1, delays := [], processed := none } :=
  sendLoop_step_clientError transport cfg attempt h1 h2

/-- Witness for C2: a 401 on attempt 1 with the default configuration
returns false immediately with zero delays. -/
theorem sendLoop_clientError_no_retry_witness :
    sendLoop transport401 defaultConfig 1 =
      { success := false, attemptsMade := 1, delays := [], processed := none } :=
  sendLoop_clientError_no_retry transport401 defaultConfig 1 (by decide) (by decide)

/-- C3: an attempt answered with a 2xx status, at any attempt number inside
the loop, hands the response body to the command processor (the processed
field of the trace) and returns true. -/
theorem sendLoop_success_processes_body (transport : Nat → HttpResponse)
    (cfg : Config) (attempt : Nat)
    (h1 : (attempt : Int) ≤ cfg.retryAttempts)
    (h2 : 200 ≤ (transport attempt).status ∧ (transport attempt).status < 300) :
    sendLoop transport cfg attempt =
      { success := true, attemptsMade := 1, delays := [],
        processed := some (transport attempt).body } :=
  sendLoop_step_success transport cfg attempt h1 h2

/-- Witness for C3: a 200 on attempt 2 of the default configuration returns
true and hands the body over. -/
theorem sendLoop_success_processes_body_witness :
    sendLoop transport200 defaultConfig 2 =
      { success := true, attemptsMade := 1, delays := [],
        processed := some "ok" } :=
  sendLoop_success_processes_body transport200 defaultConfig 2 (by decide) (by decide)

/-- C7 counterexample: the claim quantifies over every base delay, but the
retry delay is a plain int stored without clamping; for the negative base
delay -1 the computed backoff strictly decreases from attempt 1 to attempt 2,
so the monotonicity d(n) <= d(n+1) fails. -/
theorem backoffDelay_not_monotone_for_negative_base :
    ¬ (backoffDelay (-1) 1 ≤ backoffDelay (-1) 2) := by
  unfold backoffDelay MAX_RETRY_DELAY
  norm_num

/-- C7 (amended): for every nonnegative base delay the backoff delay is
monotonically non-decreasing in the attempt number, never exceeds
MAX_RETRY_DELAY, and once it reaches the cap it stays at the cap. -/
theorem backoffDelay_monotone (retryDelay : Int) (n : Nat)
    (h0 : 0 ≤ retryDelay) :
    backoffDelay retryDelay n ≤ backoffDelay retryDelay (n + 1) ∧
    backoffDelay retryDelay (n + 1) ≤ MAX_RETRY_DELAY ∧
    (backoffDelay retryDelay n = MAX_RETRY_DELAY →
      backoffDelay retryDelay (n + 1) = MAX_RETRY_DELAY) := by
  have hexp : n + 1 - 1 = n := by omega
  have hpow : (2 : Int) ^ (n - 1) ≤ 2 ^ n :=
    pow_le_pow_right₀ one_le_two (Nat.sub_le n 1)
  have hmul : retryDelay * 2 ^ (n - 1) ≤ retryDelay * 2 ^ n :=
    mul_le_mul_of_nonneg_left hpow h0
  unfold backoffDelay MAX_RETRY_DELAY
  rw [hexp]
  refine ⟨?_, ?_, ?_⟩
  · split_ifs <;> linarith
  · split_ifs <;> linarith
  · intro hd
    split_ifs at hd ⊢ <;> linarith

/-- Witness for C7 (amended): base delay 1000 between attempts 4 and 5. -/
theorem backoffDelay_monotone_witness :
    backoffDelay 1000 4 ≤ backoffDelay 1000 (4 + 1) ∧
    backoffDelay 1000 (4 + 1) ≤ MAX_RETRY_DELAY ∧
    (backoffDelay 1000 4 = MAX_RETRY_DELAY →
      backoffDelay 1000 (4 + 1) = MAX_RETRY_DELAY) :=
  backoffDelay_monotone 1000 4 (by norm_num)

/-- C10: setRetryAttempts stores its argument without clamping, and with a
configured retry_attempts at most 0 the loop condition attempt <= retryAttempts
fails already at attempt 1, so sendPayload with connectivity available makes
zero transport attempts and returns false. -/
theorem sendPayload_nonpositive_attempts_never_sends (c : Config) (a : Int)
    (transport : Nat → HttpResponse) (h : a ≤ 0) :
    sendPayload true transport (setRetryAttempts c a) =
      { success := false, attemptsMade := 0, delays := [], processed := none } := by
  unfold sendPayload
  rw [if_pos rfl, sendLoop, if_neg (by simp only [setRetryAttempts]; omega)]

/-- Witness for C10: retry_attempts set to 0 on the default configuration. -/
theorem sendPayload_nonpositive_attempts_never_sends_witness :
    sendPayload true transport503 (setRetryAttempts defaultConfig 0) =
      { success := false, attemptsMade := 0, delays := [], processed := none } :=
  sendPayload_nonpositive_attempts_never_sends defaultConfig 0 transport503
    (le_refl 0)

/-- Setting slot i and reading slot i yields the written element. -/
theorem listGet_set_self {α : Type} (l : List α) (i : Nat) (a : α)
    (h : i < l.length) : (l.set i a).get? i = some a := by
  induction l generalizing i with
  | nil => simp at h
  | cons b rest ih =>
      cases i with
      | zero => rfl
      | succ n => exact ih n (Nat.lt_of_succ_lt_succ h)

/-- Setting slot i leaves every other slot unchanged. -/
theorem listGet_set_ne {α : Type} (l : List α) (i k : Nat) (a : α)
    (h : k ≠ i) : (l.set i a).get? k = l.get? k := by
  induction l generalizing i k with
  | nil => rfl
  | cons b rest ih =>
      cases i with
      | zero =>
          cases k with
          | zero => exact absurd rfl h
          | succ m => rfl
      | succ n =>
          cases k with
          | zero => rfl
          | succ m => exact ih n m (fun hc => h (by rw [hc]))

/-- A predicate false on every element has no first index. -/
theorem firstIdx_none_of_all {α : Type} (pred : α → Bool) (l : List α)
    (h : ∀ a ∈ l, pred a = false) : firstIdx pred l = none := by
  induction l with
  | nil => rfl
  | cons a rest ih =>
      unfold firstIdx
      have ha : ¬ pred a = true := by simp [h a (List.mem_cons_self a rest)]
      rw [if_neg ha, ih (fun b hb => h b (List.mem_cons_of_mem a hb))]
      rfl

/-- The first index points at an element satisfying the predicate. -/
theorem firstIdx_some_get {α : Type} (pred : α → Bool) (l : List α) (i : Nat)
    (h : firstIdx pred l = some i) :
    ∃ a, l.get? i = some a ∧ pred a = true := by
  induction l generalizing i with
  | nil => simp [firstIdx] at h
  | cons a rest ih =>
      unfold firstIdx at h
      by_cases hp : pred a = true
      · rw [if_pos hp] at h
        have hi := Option.some.inj h
        subst hi
        exact ⟨a, rfl, hp⟩
      · rw [if_neg hp] at h
        cases hfr : firstIdx pred rest with
        | none => rw [hfr] at h; simp at h
        | some n =>
            rw [hfr] at h
            simp only [Option.map_some'] at h
            have hi := Option.some.inj h
            subst hi
            exact ih n hfr

/-- The toggle search returns none exactly when no slot matches. -/
theorem dispatchToggle_eq_none (command : String) (cs : List CommandHandler)
    (h : firstIdx (commandMatches command) cs = none) :
    dispatchToggle command cs = none := by
  induction cs with
  | nil => rfl
  | cons c rest ih =>
      unfold firstIdx at h
      unfold dispatchToggle
      by_cases hm : commandMatches command c = true
      · rw [if_pos hm] at h
        simp at h
      · rw [if_neg hm] at h
        rw [if_neg hm]
        apply ih
        cases hfr : firstIdx (commandMatches command) rest
        · rfl
        · rw [hfr] at h
          simp at h

/-- The toggle search returns the callback of the first matching slot. -/
theorem dispatchToggle_eq_some (command : String) (cs : List CommandHandler)
    (j : Nat) (c : CommandHandler)
    (h : firstIdx (commandMatches command) cs = some j)
    (hget : cs.get? j = some c) :
    dispatchToggle command cs = some c.callbackId := by
  induction cs generalizing j with
  | nil => simp [firstIdx] at h
  | cons b rest ih =>
      unfold firstIdx at h
      unfold dispatchToggle
      by_cases hm : commandMatches command b = true
      · rw [if_pos hm] at h
        have hj := Option.some.inj h
        subst hj
        have hb := Option.some.inj hget
        subst hb
        rw [if_pos hm]
      · rw [if_neg hm] at h
        rw [if_neg hm]
        cases hfr : firstIdx (commandMatches command) rest with
        | none => rw [hfr] at h; simp at h
        | some n =>
            rw [hfr] at h
            simp only [Option.map_some'] at h
            have hj := Option.some.inj h
            subst hj
            exact ih n hfr hget

/-- The pulse loop does nothing when no slot matches. -/
theorem dispatchPulse_not_found (command : String) (args : Args) (idx : Nat)
    (ps : List PulseHandler)
    (h : firstIdx (pulseMatches command) ps = none) :
    dispatchPulse command args idx ps = (ps, []) := by
  induction ps generalizing idx with
  | nil => rfl
  | cons p rest ih =>
      unfold firstIdx at h
      unfold dispatchPulse
      by_cases hm : pulseMatches command p = true
      · rw [if_pos hm] at h
        simp at h
      · rw [if_neg hm] at h
        rw [if_neg hm]
        have hrest : firstIdx (pulseMatches command) rest = none := by
          cases hfr : firstIdx (pulseMatches command) rest
          · rfl
          · rw [hfr] at h; simp at h
        rw [ih (idx + 1) hrest]

/-- The pulse loop acts on exactly the first matching slot: a no-op when
that slot is active or the duration resolves to 0, otherwise the activation
of that slot. -/
theorem dispatchPulse_found (command : String) (args : Args) (idx : Nat)
    (ps : List PulseHandler) (i : Nat) (p : PulseHandler)
    (h : firstIdx (pulseMatches command) ps = some i)
    (hget : ps.get? i = some p) :
    dispatchPulse command args idx ps =
      if p.active = true then (ps, [])
      else if resolveDuration p.durationMs args = 0 then (ps, [])
      else (ps.set i { p with active := true },
        pulseOnEffects (idx + i) p ++
          [SideEffect.scheduleOff (idx + i) (resolveDuration p.durationMs args)]) := by
  induction ps generalizing idx i with
  | nil => simp [firstIdx] at h
  | cons q rest ih =>
      unfold firstIdx at h
      by_cases hm : pulseMatches command q = true
      · rw [if_pos hm] at h
        have hi := Option.some.inj h
        subst hi
        have hq := Option.some.inj hget
        subst hq
        unfold dispatchPulse
        rw [if_pos hm]
        rfl
      · rw [if_neg hm] at h
        cases hfr : firstIdx (pulseMatches command) rest with
        | none => rw [hfr] at h; simp at h
        | some n =>
            rw [hfr] at h
            simp only [Option.map_some'] at h
            have hi := Option.some.inj h
            subst hi
            unfold dispatchPulse
            rw [if_neg hm]
            rw [ih (idx + 1) n hfr hget]
            have hidx : idx + 1 + n = idx + (n + 1) := by omega
            rw [hidx]
            split_ifs
            · rfl
            · rfl
            · rfl

/-- C4: when a dispatched command reaches the pulse registry (no toggle
matches) and slot i is the first matching pulse slot, the dispatch activates
the slot (sets active, emits the on side effect once, schedules one
deactivation after the resolved duration) exactly when the slot is not
already active and the resolved duration is positive; otherwise the whole
state is unchanged and no side effect occurs. -/
theorem dispatchCommand_pulse_activation (s : DeviceState) (command : String)
    (args : Args) (i : Nat) (p : PulseHandler)
    (hnt : firstIdx (commandMatches command) s.commands = none)
    (hp : firstIdx (pulseMatches command) s.pulses = some i)
    (hget : s.pulses.get? i = some p) :
    (p.active = false → 0 < resolveDuration p.durationMs args →
      dispatchCommand s command args =
        ({ s with pulses := s.pulses.set i { p with active := true } },
          pulseOnEffects i p ++
            [SideEffect.scheduleOff i (resolveDuration p.durationMs args)])) ∧
    (p.active = true ∨ resolveDuration p.durationMs args = 0 →
      dispatchCommand s command args = (s, [])) := by
  have hTog := dispatchToggle_eq_none command s.commands hnt
  have hPul := dispatchPulse_found command args 0 s.pulses i p hp hget
  simp only [Nat.zero_add] at hPul
  constructor
  · intro hact hdur
    unfold dispatchCommand
    rw [hTog, hPul, if_neg (by simp [hact]), if_neg (by omega)]
  · intro hcase
    unfold dispatchCommand
    rcases hcase with hact | hdur
    · rw [hTog, hPul, if_pos hact]
    · rw [hTog, hPul]
      by_cases hact : p.active = true
      · rw [if_pos hact]
      · rw [if_neg hact, if_pos hdur]

/-- Witness for C4: dispatching pulse1 on a device whose only pulse slot is
idle with configured duration 100 activates slot 0, drives pin 5 high and
schedules one deactivation after 100 ms. -/
theorem dispatchCommand_pulse_activation_witness :
    dispatchCommand pulseState "pulse1" [] =
      ({ pulseState with
          pulses := pulseState.pulses.set 0 { samplePulse with active := true } },
        pulseOnEffects 0 samplePulse ++
          [SideEffect.scheduleOff 0 (resolveDuration samplePulse.durationMs [])]) :=
  (dispatchCommand_pulse_activation pulseState "pulse1" [] 0 samplePulse
    (by decide) (by decide) (by decide)).1 (by decide) (by decide)

/-- C5: on a 2xx delivery the loop returns true whatever the body holds; the
command processor dispatches exactly the entries of the commands array whose
command string is non-empty, in order; an empty body, a parse failure or a
missing commands array all give zero dispatches. -/
theorem processCommands_filter_and_success (parse : String → ParseResult)
    (responseBody : String) (transport : Nat → HttpResponse) (cfg : Config)
    (attempt : Nat) (h1 : (attempt : Int) ≤ cfg.retryAttempts)
    (h2 : 200 ≤ (transport attempt).status ∧ (transport attempt).status < 300) :
    (sendLoop transport cfg attempt).success = true ∧
    (∀ entries, responseBody.length ≠ 0 →
      parse responseBody = ParseResult.commands entries →
      processCommands parse responseBody =
        entries.filter (fun e => 0 < e.command.length)) ∧
    (responseBody.length = 0 ∨ parse responseBody = ParseResult.err ∨
        parse responseBody = ParseResult.noCommands →
      processCommands parse responseBody = []) := by
  refine ⟨?_, ?_, ?_⟩
  · rw [sendLoop_step_success transport cfg attempt h1 h2]
  · intro entries hne hparse
    unfold processCommands
    rw [if_neg hne, hparse]
  · intro hcase
    unfold processCommands
    by_cases hlen : responseBody.length = 0
    · rw [if_pos hlen]
    · rw [if_neg hlen]
      rcases hcase with hc | hc | hc
      · exact absurd hc hlen
      · rw [hc]
      · rw [hc]

/-- Witness for C5: a 200 delivery succeeds, and the fixture body cmds with
one valid and one empty-named entry dispatches exactly the valid one. -/
theorem processCommands_filter_and_success_witness :
    (sendLoop transport200 defaultConfig 1).success = true ∧
    processCommands sampleParse "cmds" =
      List.filter (fun e => 0 < e.command.length)
        [sampleEntry, sampleEmptyEntry] := by
  have h := processCommands_filter_and_success sampleParse "cmds" transport200
    defaultConfig 1 (by decide) (by decide)
  exact ⟨h.1, h.2.1 [sampleEntry, sampleEmptyEntry] (by decide) rfl⟩

/-- C6: the toggle registry is searched before the pulse registry, each in
registration order; a first toggle match at slot j invokes exactly that
callback and leaves the whole state unchanged, so a name in both registries
is handled only by the toggle entry; the toggle registry is never mutated;
and when dispatch falls through to the pulse registry only the first
matching pulse slot can change. -/
theorem dispatchCommand_precedence (s : DeviceState) (command : String)
    (args : Args) :
    (∀ j c, firstIdx (commandMatches command) s.commands = some j →
      s.commands.get? j = some c →
      dispatchCommand s command args =
        (s, [SideEffect.toggleCallback c.callbackId args])) ∧
    ((dispatchCommand s command args).1.commands = s.commands) ∧
    (firstIdx (commandMatches command) s.commands = none →
      ∀ i, firstIdx (pulseMatches command) s.pulses = some i →
        ∀ k, k ≠ i →
          (dispatchCommand s command args).1.pulses.get? k =
            s.pulses.get? k) := by
  refine ⟨?_, ?_, ?_⟩
  · intro j c hj hc
    have hTog := dispatchToggle_eq_some command s.commands j c hj hc
    unfold dispatchCommand
    rw [hTog]
  · unfold dispatchCommand
    cases hTog : dispatchToggle command s.commands <;> rfl
  · intro hT i hi k hk
    obtain ⟨p, hget, _⟩ := firstIdx_some_get (pulseMatches command) s.pulses i hi
    have hTog := dispatchToggle_eq_none command s.commands hT
    unfold dispatchCommand
    rw [hTog, dispatchPulse_found command args 0 s.pulses i p hi hget]
    split_ifs
    · rfl
    · rfl
    · exact listGet_set_ne s.pulses i k _ hk

/-- Witness for C6: on a device with the name relay in both registries, the
dispatch invokes only the toggle callback and changes nothing. -/
theorem dispatchCommand_precedence_witness :
    dispatchCommand dualState "relay" [] =
      (dualState, [SideEffect.toggleCallback 7 []]) :=
  (dispatchCommand_precedence dualState "relay" []).1 0
    { name := "relay", callbackId := 7, registered := true }
    (by decide) (by decide)

/-- C8: each registry is gated only on its own count, so a registration to a
registry that is at (or beyond) its own capacity — 16 toggle slots via
onCommand, 8 pulse slots via either onPulse overload — returns the state
completely unchanged whatever the other registry holds and whether or not
the name is a duplicate of an existing slot; the registration functions are
total, so the process never aborts; and after either kind of drop, a
dispatch of the dropped name, registered nowhere, matches no handler and is
a no-op. -/
theorem registries_full_drop (s : DeviceState) (commandName : String)
    (callbackId : Nat) (pin : Int) (durationMs : Nat) (hasOn hasOff : Bool)
    (args : Args) :
    (MAX_COMMANDS ≤ s.commands.length →
      onCommand s commandName callbackId = s) ∧
    (MAX_PULSES ≤ s.pulses.length →
      onPulsePin s commandName pin durationMs = s ∧
      onPulseCallback s commandName durationMs hasOn hasOff = s) ∧
    ((∀ c ∈ s.commands, c.name ≠ commandName) →
      (∀ q ∈ s.pulses, q.name ≠ commandName) →
      (MAX_COMMANDS ≤ s.commands.length →
        dispatchCommand (onCommand s commandName callbackId) commandName args =
          (s, [])) ∧
      (MAX_PULSES ≤ s.pulses.length →
        dispatchCommand (onPulsePin s commandName pin durationMs) commandName
          args = (s, []))) := by
  have h1 : MAX_COMMANDS ≤ s.commands.length →
      onCommand s commandName callbackId = s := by
    intro hc
    unfold onCommand
    rw [if_pos hc]
  have h2 : MAX_PULSES ≤ s.pulses.length →
      onPulsePin s commandName pin durationMs = s := by
    intro hpl
    unfold onPulsePin
    rw [if_pos hpl]
  have h3 : MAX_PULSES ≤ s.pulses.length →
      onPulseCallback s commandName durationMs hasOn hasOff = s := by
    intro hpl
    unfold onPulseCallback
    rw [if_pos hpl]
  refine ⟨h1, fun hpl => ⟨h2 hpl, h3 hpl⟩, ?_⟩
  intro hfreshC hfreshP
  have hdisp : dispatchCommand s commandName args = (s, []) := by
    have hTog : dispatchToggle commandName s.commands = none := by
      apply dispatchToggle_eq_none
      apply firstIdx_none_of_all
      intro c hcm
      have hne : (c.name == commandName) = false :=
        beq_eq_false_iff_ne.mpr (hfreshC c hcm)
      simp [commandMatches, hne]
    have hPul : dispatchPulse commandName args 0 s.pulses = (s.pulses, []) := by
      apply dispatchPulse_not_found
      apply firstIdx_none_of_all
      intro q hql
      have hne : (q.name == commandName) = false :=
        beq_eq_false_iff_ne.mpr (hfreshP q hql)
      simp [pulseMatches, hne]
    unfold dispatchCommand
    rw [hTog, hPul]
  constructor
  · intro hc
    rw [h1 hc]
    exact hdisp
  · intro hpl
    rw [h2 hpl]
    exact hdisp

/-- Witness for C8: the 17th toggle registration on a device whose pulse
registry is empty is dropped, the 9th pulse registration on a device whose
toggle registry is empty is dropped, and dispatching the dropped fresh name
new after either drop does nothing. -/
theorem registries_full_drop_witness :
    onCommand toggleFullState "new" 9 = toggleFullState ∧
    (onPulsePin pulseFullState "new" 2 20 = pulseFullState ∧
      onPulseCallback pulseFullState "new" 20 true true = pulseFullState) ∧
    dispatchCommand (onCommand toggleFullState "new" 9) "new" [] =
      (toggleFullState, []) ∧
    dispatchCommand (onPulsePin pulseFullState "new" 2 20) "new" [] =
      (pulseFullState, []) :=
  ⟨(registries_full_drop toggleFullState "new" 9 2 20 true true []).1
      (by decide),
    (registries_full_drop pulseFullState "new" 9 2 20 true true []).2.1
      (by decide),
    ((registries_full_drop toggleFullState "new" 9 2 20 true true []).2.2
      (by decide) (by decide)).1 (by decide),
    ((registries_full_drop pulseFullState "new" 9 2 20 true true []).2.2
      (by decide) (by decide)).2 (by decide)⟩

/-- C9: handlePulseOff is a total function and at the deactivation dispatch
point it is idempotent: an out-of-range integer index or an inactive slot is
a no-op (no side effect, no state change); an active slot emits the off side
effect, clears active, and a duplicate invocation on the resulting state is
a no-op, so the off side effect fires at most once per activation. -/
theorem handlePulseOff_total_idempotent (s : DeviceState) (pulseIndex : Int) :
    (pulseIndex < 0 ∨ (s.pulses.length : Int) ≤ pulseIndex →
      handlePulseOff s pulseIndex = (s, [])) ∧
    (∀ p, s.pulses.get? pulseIndex.toNat = some p →
      ¬ (pulseIndex < 0 ∨ (s.pulses.length : Int) ≤ pulseIndex) →
      (p.active = false → handlePulseOff s pulseIndex = (s, [])) ∧
      (p.active = true →
        handlePulseOff s pulseIndex =
          ({ s with pulses :=
              s.pulses.set pulseIndex.toNat { p with active := false } },
            pulseOffEffects pulseIndex.toNat p) ∧
        handlePulseOff (handlePulseOff s pulseIndex).1 pulseIndex =
          ((handlePulseOff s pulseIndex).1, []))) := by
  constructor
  · intro h
    unfold handlePulseOff
    rw [if_pos h]
  · intro p hget hnb
    have hbound : pulseIndex.toNat < s.pulses.length := by omega
    constructor
    · intro hfalse
      unfold handlePulseOff
      rw [if_neg hnb]
      split
      · rfl
      · rename_i q hq
        rw [hget] at hq
        have hqp := Option.some.inj hq
        subst hqp
        rw [if_pos hfalse]
    · intro htrue
      have heq : handlePulseOff s pulseIndex =
          ({ s with pulses :=
              s.pulses.set pulseIndex.toNat { p with active := false } },
            pulseOffEffects pulseIndex.toNat p) := by
        unfold handlePulseOff
        rw [if_neg hnb]
        split
        · rename_i hq
          rw [hget] at hq
          simp at hq
        · rename_i q hq
          rw [hget] at hq
          have hqp := Option.some.inj hq
          subst hqp
          rw [if_neg (by simp [htrue])]
      refine ⟨heq, ?_⟩
      rw [heq]
      unfold handlePulseOff
      simp only [List.length_set]
      rw [if_neg hnb,
        listGet_set_self s.pulses pulseIndex.toNat { p with active := false }
          hbound]
      rfl

/-- Witness for C9: deactivating the active fixture slot emits the off side
effect once; the duplicate call on the resulting state is a no-op. -/
theorem handlePulseOff_total_idempotent_witness :
    handlePulseOff activePulseState 0 =
      ({ activePulseState with
          pulses := activePulseState.pulses.set 0 samplePulseCleared },
        pulseOffEffects 0 samplePulseActive) ∧
    handlePulseOff (handlePulseOff activePulseState 0).1 0 =
      ((handlePulseOff activePulseState 0).1, []) :=
  ((handlePulseOff_total_idempotent activePulseState 0).2
    samplePulseActive (by decide) (by decide)).2 (by decide)

end Inventronix
